import Mathlib

/-!
Shallow embedding of librelaxisloader (src/relaxisloader.c, src/utils.c,
src/relaxisloader/relaxisloader.h) for verification of its specification.

Modelling decisions, each mirroring the C source:
* The sqlite backend is modelled by a `Db` value holding the typed rows of the
  five logical tables plus per-query fault-injection records that stand for
  backend-level failures (`sqlite3_get_table` returning a nonzero code) and
  column-shape drift.  `sqlite3_get_table` reports `cols = 0` and `rows = 0`
  for an empty result set (verified against libsqlite3: the row callback is
  never invoked, so the column count is never recorded); `runGetTable` models
  exactly that, which is why several `cols`-mismatch branches fire on empty
  results.
* Cell text that the C converts with `sscanf("%d")`/`sscanf("%lf")` under an
  `assert` (project ids, frequency values, frequency limits) is modelled as
  already-typed `Int`/`ℚ` cells: those asserts only guard scalar decoding and
  no claim concerns them.  Date cells (decoded by `rlx_str_to_time` in
  src/utils.c) are likewise modelled as already-decoded `Int` timestamps.
* IEEE-754 doubles are modelled as exact rationals; `M_PI` is the exact
  rational value of the C double constant `M_PI`.
* The double parse performed by `sscanf("%lf", ...)` on metadata values is
  modelled by `parseDouble`, a strtod-style longest-prefix decimal parser
  (optional sign, digits with optional fraction, optional exponent).  The
  infinity/NaN spellings accepted by some C libraries are outside the model.
* `malloc` failure paths (RLX_ERR_OOM) are not modelled: allocation always
  succeeds in the model.
* A C `assert` whose failure aborts the process is modelled by the `abort`
  constructor of `CResult` where a claim depends on it (the column-count
  assert in `rlx_get_fit_parameters`).
* Out-parameters written through pointers are returned as extra components;
  a `size_t` out-parameter that the C leaves unwritten on some paths (so the
  caller sees an indeterminate value) is typed `Option Nat`, `none` standing
  for "never written".
-/

namespace Rlx

/-- sqlite3 result code SQLITE_OK. -/
def SQLITE_OK : Int := 0
/-- sqlite3 result code SQLITE_ROW. -/
def SQLITE_ROW : Int := 100
/-- sqlite3 result code SQLITE_DONE. -/
def SQLITE_DONE : Int := 101

/-- Error codes from the anonymous enum in relaxisloader.h. -/
def RLX_ERR_SUCESS : Int := 0
def RLX_ERR_NO_ENT : Int := -100
def RLX_ERR_NO_SPECTRA : Int := -101
def RLX_ERR_NON_EXIST_SPECTRA : Int := -102
def RLX_ERR_OOM : Int := -103
def RLX_ERR_FMT : Int := -104

/-- Exact rational value of the IEEE-754 double constant `M_PI`
(0x1.921fb54442d18p+1 = 884279719003555 / 2^48). -/
def C_M_PI : ℚ := 884279719003555 / 281474976710656

/-! ## Table rows (schema of the archive, spec section 6) -/

/-- A row of the `Properties` table: `Properties(Name,Value)`; the `Value`
cell is read with `sqlite3_column_int`, so it is typed `Int` here. -/
structure PropertiesRow where
  name : String
  value : Int
deriving DecidableEq

/-- A row of the `Projects` table: `Projects(ID,NAME,DATE)`. -/
structure ProjectsRow where
  id : Int
  name : String
  date : Int
deriving DecidableEq

/-- A row of the `Files` table (columns the loaders read). -/
structure FilesRow where
  id : Int
  project_id : Int
  groupname : String
  fitted : String
  lowfreqlimit : ℚ
  highfreqlimit : ℚ
  dateadded : Int
  datefitted : Int
deriving DecidableEq

/-- A row of the `Datapoints` table. -/
structure DatapointsRow where
  file_id : Int
  frequency : ℚ
  zreal : ℚ
  zimag : ℚ
deriving DecidableEq

/-- A row of the `FileInformation` table (metadata). -/
structure FileInformationRow where
  file_id : Int
  name : String
  value : String
deriving DecidableEq

/-- A row of the `Fitparameters` table. -/
structure FitparametersRow where
  file_id : Int
  pindex : Int
  name : String
  value : ℚ
  error : ℚ
  lowerlimit : ℚ
  upperlimit : ℚ
deriving DecidableEq

/-! ## Fault injection for the backend -/

/-- Fault injection for one `sqlite3_get_table` call site: `retCode` is the
value returned by `sqlite3_get_table` (0 = SQLITE_OK), `colsOverride`
replaces the naturally reported column count when present. -/
structure GetTableFault where
  retCode : Int
  colsOverride : Option Nat
deriving DecidableEq

def GetTableFault.clean : GetTableFault := ⟨0, none⟩

/-- Fault injection for the streaming fit-parameter query:
`prepareRet` is the `sqlite3_prepare_v2` result, `colCount` the
`sqlite3_column_count` of the prepared statement (6 for a well-formed
archive), `stepTermRet` the terminal `sqlite3_step` result after the last
row (SQLITE_DONE = 101 normally), `finalizeRet` the `sqlite3_finalize`
result (0 normally). -/
structure FitFault where
  prepareRet : Int
  colCount : Nat
  stepTermRet : Int
  finalizeRet : Int
deriving DecidableEq

def FitFault.clean : FitFault := ⟨0, 6, 101, 0⟩

/-- Fault injection for `rlx_open_file`: `openRet` is the
`sqlite3_open_v2` result, `prepareRet` the `sqlite3_prepare_v2` result for
the version query, `colsOverride` replaces the statement's natural column
count (1) when present. -/
structure OpenFault where
  openRet : Int
  prepareRet : Int
  colsOverride : Option Nat
deriving DecidableEq

def OpenFault.clean : OpenFault := ⟨0, 0, none⟩

/-! ## The archive (database) and the handle -/

/-- The archive: typed contents of the five logical tables plus the
`Properties` table, and the fault state of the backend at each query site. -/
structure Db where
  properties : List PropertiesRow
  projects : List ProjectsRow
  files : List FilesRow
  datapoints : List DatapointsRow
  fileInformation : List FileInformationRow
  fitparameters : List FitparametersRow
  projectsFault : GetTableFault := GetTableFault.clean
  filesFault : GetTableFault := GetTableFault.clean
  idsFault : GetTableFault := GetTableFault.clean
  datapointsFault : GetTableFault := GetTableFault.clean
  metadataFault : GetTableFault := GetTableFault.clean
  fitFault : FitFault := FitFault.clean
  openFault : OpenFault := OpenFault.clean
deriving DecidableEq

/-- `struct rlxfile`: the open handle, an `int error` field plus the
connection. -/
structure rlxfile where
  error : Int
  db : Db
deriving DecidableEq

/-- Result of one `sqlite3_get_table` call. -/
inductive TableRes (α : Type) where
  | backendErr (code : Int)
  | ok (rows : List α) (cols : Nat)
deriving DecidableEq

/-- Model of `sqlite3_get_table`: a nonzero injected return code is a
backend error; otherwise the typed rows are delivered, with the column
count 0 when the result set is empty (libsqlite3 behavior: the row
callback that records the column count is never invoked), `natCols`
otherwise, unless overridden by fault injection. -/
def runGetTable {α : Type} (fault : GetTableFault) (natCols : Nat)
    (rows : List α) : TableRes α :=
  if fault.retCode ≠ 0 then .backendErr fault.retCode
  else .ok rows (fault.colsOverride.getD (if rows.isEmpty then 0 else natCols))

/-! ## Domain records (relaxisloader.h; the metadata declarations are not in
the header revision under src, they are reconstructed from their usage in
src/relaxisloader.c together with spec section 3) -/

/-- `struct rlx_project`. -/
structure rlx_project where
  id : Int
  name : String
  date : Int
deriving DecidableEq

/-- `struct rlx_datapoint` (field order im, re, omega as in the header). -/
structure rlx_datapoint where
  im : ℚ
  re : ℚ
  omega : ℚ
deriving DecidableEq

/-- Modelled from the spec: the metadata value type tag
(`RLX_FIELD_TYPE_DOUBLE` / `RLX_FIELD_TYPE_STR`), whose declaration is in a
header revision not present under src; the two constructors are exactly the
ones used by src/relaxisloader.c and the numeric/string tagging of spec
section 3. -/
inductive rlx_metadata_field_type where
  | RLX_FIELD_TYPE_DOUBLE
  | RLX_FIELD_TYPE_STR
deriving DecidableEq

/-- Modelled from the spec: `struct rlx_metadata`, declared in a header
revision not present under src; its four fields (key, str, value, type) are
exactly the ones src/relaxisloader.c reads and writes.  The C leaves
`value` uninitialized when the double parse fails; the model stores 0
there (spec: the numeric field is unused when the entry is string-typed). -/
structure rlx_metadata where
  key : String
  str : String
  value : ℚ
  type : rlx_metadata_field_type
deriving DecidableEq

/-- Modelled from the spec: `enum rlx_metadata_field`, declared in a header
revision not present under src; the members are exactly the ones the switch
in `rlx_metadata_get_key` (src/relaxisloader.c) covers, matching the fixed
set of measurement-condition fields of spec section 3. -/
inductive rlx_metadata_field where
  | RLX_FIELD_UNKOWN
  | RLX_FIELD_TEMPERATURE
  | RLX_FIELD_DC_VOLTAGE
  | RLX_FIELD_AC_VOLTAGE
  | RLX_FIELD_CURRENT
  | RLX_FIELD_TIME
  | RLX_FIELD_HARMONIC
  | RLX_FIELD_CONCENTRATION
  | RLX_FIELD_FREE_VARIABLE_ONE
  | RLX_FIELD_FREE_VARIABLE_TWO
  | RLX_FIELD_AREA
  | RLX_FIELD_THICKNESS
  | RLX_FIELD_SOC
  | RLX_FIELD_SOH
  | RLX_FIELD_PRESSURE
deriving DecidableEq, Fintype

/-- `struct rlx_spectra`.  `datapoints` and `metadata` are `none` when the C
pointers are NULL; `length` is `none` when the C never wrote the field (it
is uninitialized memory in that case). -/
structure rlx_spectra where
  id : Int
  datapoints : Option (List rlx_datapoint)
  length : Option Nat
  circuit : String
  fitted : Bool
  project_id : Int
  freq_lower_limit : ℚ
  freq_upper_limit : ℚ
  date_added : Int
  date_fitted : Int
  metadata : Option (List rlx_metadata)
  metadata_count : Nat
deriving DecidableEq

/-- `struct rlx_fitparam`. -/
structure rlx_fitparam where
  spectra_id : Int
  p_index : Int
  name : String
  value : ℚ
  error : ℚ
  lower_limit : ℚ
  upper_limit : ℚ
deriving DecidableEq

/-- Outcome of a C call that contains an `assert`: either the function
returns a value, or the assertion fails and the process aborts. -/
inductive CResult (α : Type) where
  | ret (val : α)
  | abort
deriving DecidableEq

/-! ## Scalar decoding : model of sscanf("%lf") -/

/-- Value of a digit list read most-significant first. -/
def digitsToNat (ds : List Char) : Nat :=
  ds.foldl (fun n c => 10 * n + (c.toNat - 48)) 0

/-- strtod-style parse of an optional exponent suffix: `e`/`E`, optional
sign, at least one digit; anything else contributes exponent 0. -/
def parseExpo (l : List Char) : Int :=
  match l with
  | c :: r =>
    if c = 'e' ∨ c = 'E' then
      match r with
      | '-' :: r2 =>
        let ed := r2.takeWhile (fun d => d.isDigit)
        if ed.isEmpty then 0 else -(digitsToNat ed : Int)
      | '+' :: r2 =>
        let ed := r2.takeWhile (fun d => d.isDigit)
        if ed.isEmpty then 0 else (digitsToNat ed : Int)
      | _ =>
        let ed := r.takeWhile (fun d => d.isDigit)
        if ed.isEmpty then 0 else (digitsToNat ed : Int)
    else 0
  | [] => 0

/-- Model of `sscanf(s, "%lf", &v)` as used by the metadata loader: skip
leading whitespace, optional sign, digits with optional fraction (at least
one digit in the significand), optional exponent; the longest valid prefix
is converted.  `none` models a conversion count of 0. -/
def parseDouble (s : String) : Option ℚ :=
  let l := s.toList.dropWhile (fun c => c.isWhitespace)
  let sl : ℚ × List Char :=
    match l with
    | '-' :: r => (-1, r)
    | '+' :: r => (1, r)
    | _ => (1, l)
  let ip := sl.2.takeWhile (fun c => c.isDigit)
  let l2 := sl.2.dropWhile (fun c => c.isDigit)
  let fl : List Char × List Char :=
    match l2 with
    | '.' :: r => (r.takeWhile (fun c => c.isDigit), r.dropWhile (fun c => c.isDigit))
    | _ => ([], l2)
  if ip.isEmpty ∧ fl.1.isEmpty then none
  else
    let mant : ℚ := (digitsToNat ip : ℚ) + (digitsToNat fl.1 : ℚ) / ((10 : ℚ) ^ fl.1.length)
    some (sl.1 * mant * (10 : ℚ) ^ parseExpo fl.2)

/-! ## The loaders (src/relaxisloader.c) -/

/-- `rlx_get_errnum`. -/
def rlx_get_errnum (file : rlxfile) : Int := file.error

/-- The `DatabaseFormat` value stored in the `Properties` table, as
`rlx_open_file` reads it: the first matching row's integer value, or 0 when
no row matches (`sqlite3_column_int` on a statement whose step returned
SQLITE_DONE yields 0). -/
def dbVersion (db : Db) : Int :=
  match db.properties.find? (fun p => p.name = "DatabaseFormat") with
  | some p => p.value
  | none => 0

/-- `rlx_open_file`: open the connection read-only, query
`SELECT Value FROM Properties WHERE Name="DatabaseFormat"`, accept only
versions 1 and 2.  The out `error` string is not modelled.  On every
failure NULL (`none`) is returned; on success the handle carries error
state 0 (the C `calloc`s the handle, so `error` starts at 0 and is never
written in this function). -/
def rlx_open_file (db : Db) : Option rlxfile :=
  if ¬(db.openFault.openRet = SQLITE_OK ∨ db.openFault.openRet = SQLITE_DONE) then none
  else if db.openFault.prepareRet ≠ SQLITE_OK then none
  else if
      ((if (db.properties.find? (fun p => p.name = "DatabaseFormat")).isSome
        then SQLITE_ROW else SQLITE_DONE) ≠ SQLITE_OK ∧
       (if (db.properties.find? (fun p => p.name = "DatabaseFormat")).isSome
        then SQLITE_ROW else SQLITE_DONE) ≠ SQLITE_DONE ∧
       (if (db.properties.find? (fun p => p.name = "DatabaseFormat")).isSome
        then SQLITE_ROW else SQLITE_DONE) ≠ SQLITE_ROW) ∨
      db.openFault.colsOverride.getD 1 ≠ 1
    then none
  else if dbVersion db ≠ 1 ∧ dbVersion db ≠ 2 then none
  else some ⟨0, db⟩

/-- `rlx_get_projects`: `SELECT ID,NAME,DATE FROM Projects`.  The `length`
out-parameter always mirrors the length of the returned array and is not
modelled separately; the RLX_ERR_OOM branch (malloc failure) is not
modelled. -/
def rlx_get_projects (file : rlxfile) : Option (List rlx_project) × rlxfile :=
  match runGetTable file.db.projectsFault 3 file.db.projects with
  | .backendErr c => (none, { file with error := c })
  | .ok rows cols =>
    if cols ≠ 3 then (none, { file with error := RLX_ERR_FMT })
    else (some (rows.map fun r => ⟨r.id, r.name, r.date⟩), file)

/-- `rlx_get_datapoints` (static): `SELECT frequency,zreal,zimag FROM
Datapoints WHERE file_id=id`.  The checks run in source order: backend
error, then `cols != 3`, then `rows < 2`; the `*length` out-parameter is
written 0 on the backend-error path, left unwritten (`none`) on the two
shape paths, and written with the row count on success.  `omega` is the
frequency multiplied by `2*M_PI`. -/
def rlx_get_datapoints (file : rlxfile) (id : Int) :
    Option (List rlx_datapoint) × Option Nat × rlxfile :=
  match runGetTable file.db.datapointsFault 3
      (file.db.datapoints.filter (fun r => r.file_id = id)) with
  | .backendErr c => (none, some 0, { file with error := c })
  | .ok rows cols =>
    if cols ≠ 3 then (none, none, { file with error := RLX_ERR_FMT })
    else if rows.length < 1 then (none, none, { file with error := RLX_ERR_NO_ENT })
    else
      (some (rows.map fun r => ⟨r.zimag, r.zreal, r.frequency * (2 * C_M_PI)⟩),
       some rows.length, file)

/-- `rlx_metadata_get_key`: the switch in src/relaxisloader.c. -/
def rlx_metadata_get_key (field : rlx_metadata_field) : String :=
  match field with
  | .RLX_FIELD_TEMPERATURE => "Temperature"
  | .RLX_FIELD_DC_VOLTAGE => "DCVoltage"
  | .RLX_FIELD_AC_VOLTAGE => "ACVoltage"
  | .RLX_FIELD_CURRENT => "Current"
  | .RLX_FIELD_TIME => "Time"
  | .RLX_FIELD_HARMONIC => "Harmonic"
  | .RLX_FIELD_CONCENTRATION => "Concentration"
  | .RLX_FIELD_FREE_VARIABLE_ONE => "FreeVariable"
  | .RLX_FIELD_FREE_VARIABLE_TWO => "FreeVariable2"
  | .RLX_FIELD_AREA => "Area"
  | .RLX_FIELD_THICKNESS => "Thickness"
  | .RLX_FIELD_SOC => "SOC"
  | .RLX_FIELD_SOH => "SOH"
  | .RLX_FIELD_PRESSURE => "Pressure"
  | .RLX_FIELD_UNKOWN => "Unkown"

/-- `rlx_metadata_get_enum`: the if-else chain in src/relaxisloader.c
(including its duplicated PRESSURE comparison). -/
def rlx_metadata_get_enum (key : String) : rlx_metadata_field :=
  if key = rlx_metadata_get_key .RLX_FIELD_TEMPERATURE then .RLX_FIELD_TEMPERATURE
  else if key = rlx_metadata_get_key .RLX_FIELD_DC_VOLTAGE then .RLX_FIELD_DC_VOLTAGE
  else if key = rlx_metadata_get_key .RLX_FIELD_AC_VOLTAGE then .RLX_FIELD_AC_VOLTAGE
  else if key = rlx_metadata_get_key .RLX_FIELD_CURRENT then .RLX_FIELD_CURRENT
  else if key = rlx_metadata_get_key .RLX_FIELD_TIME then .RLX_FIELD_TIME
  else if key = rlx_metadata_get_key .RLX_FIELD_HARMONIC then .RLX_FIELD_HARMONIC
  else if key = rlx_metadata_get_key .RLX_FIELD_CONCENTRATION then .RLX_FIELD_CONCENTRATION
  else if key = rlx_metadata_get_key .RLX_FIELD_FREE_VARIABLE_ONE then .RLX_FIELD_FREE_VARIABLE_ONE
  else if key = rlx_metadata_get_key .RLX_FIELD_FREE_VARIABLE_TWO then .RLX_FIELD_FREE_VARIABLE_TWO
  else if key = rlx_metadata_get_key .RLX_FIELD_AREA then .RLX_FIELD_AREA
  else if key = rlx_metadata_get_key .RLX_FIELD_THICKNESS then .RLX_FIELD_THICKNESS
  else if key = rlx_metadata_get_key .RLX_FIELD_SOC then .RLX_FIELD_SOC
  else if key = rlx_metadata_get_key .RLX_FIELD_SOH then .RLX_FIELD_SOH
  else if key = rlx_metadata_get_key .RLX_FIELD_PRESSURE then .RLX_FIELD_PRESSURE
  else if key = rlx_metadata_get_key .RLX_FIELD_PRESSURE then .RLX_FIELD_PRESSURE
  else .RLX_FIELD_UNKOWN

/-- `rlx_get_metadata` (static): `SELECT name,value FROM FileInformation
WHERE file_id=id`.  `*length` is written 0 up front, so the count component
is always defined; each row keeps the raw string and is tagged
`RLX_FIELD_TYPE_DOUBLE` with the parsed value exactly when `sscanf("%lf")`
converts it, `RLX_FIELD_TYPE_STR` otherwise. -/
def rlx_get_metadata (file : rlxfile) (id : Int) :
    Option (List rlx_metadata) × Nat × rlxfile :=
  match runGetTable file.db.metadataFault 2
      (file.db.fileInformation.filter (fun r => r.file_id = id)) with
  | .backendErr c => (none, 0, { file with error := c })
  | .ok rows cols =>
    if cols ≠ 2 then (none, 0, { file with error := RLX_ERR_FMT })
    else
      (some (rows.map fun r =>
        match parseDouble r.value with
        | some v => ⟨r.name, r.value, v, .RLX_FIELD_TYPE_DOUBLE⟩
        | none => ⟨r.name, r.value, 0, .RLX_FIELD_TYPE_STR⟩),
       rows.length, file)

/-- `rlx_get_spectra`: single-row lookup in `Files` by
`project_id=project.id AND ID=id` (checks in source order: backend error,
`rows < 2`, `cols != 6`), then unconditional datapoint and metadata
loading; note the C never checks whether those inner loads failed and
returns the record regardless. -/
def rlx_get_spectra (file : rlxfile) (project : rlx_project) (id : Int) :
    Option rlx_spectra × rlxfile :=
  match runGetTable file.db.filesFault 6
      (file.db.files.filter (fun r => r.project_id = project.id ∧ r.id = id)) with
  | .backendErr c => (none, { file with error := c })
  | .ok rows cols =>
    match rows with
    | [] => (none, { file with error := RLX_ERR_NON_EXIST_SPECTRA })
    | r :: _ =>
      if cols ≠ 6 then (none, { file with error := RLX_ERR_FMT })
      else
        (some
          { id := id
            datapoints := (rlx_get_datapoints file id).1
            length := (rlx_get_datapoints file id).2.1
            circuit := r.groupname
            fitted := r.fitted.front == '1'
            project_id := project.id
            freq_lower_limit := r.lowfreqlimit
            freq_upper_limit := r.highfreqlimit
            date_added := r.dateadded
            date_fitted := r.datefitted
            metadata := (rlx_get_metadata (rlx_get_datapoints file id).2.2 id).1
            metadata_count := (rlx_get_metadata (rlx_get_datapoints file id).2.2 id).2.1 },
         (rlx_get_metadata (rlx_get_datapoints file id).2.2 id).2.2)

/-- `rlx_get_spectra_ids`: `SELECT ID FROM Files where project_id=%d`
(checks in source order: backend error, `cols == 0`, `cols != 1`,
`rows < 2`).  The `length` out-parameter always mirrors the returned
array's length and is not modelled separately. -/
def rlx_get_spectra_ids (file : rlxfile) (project : rlx_project) :
    Option (List Int) × rlxfile :=
  match runGetTable file.db.idsFault 1
      ((file.db.files.filter (fun r => r.project_id = project.id)).map (fun r => r.id)) with
  | .backendErr c => (none, { file with error := c })
  | .ok rows cols =>
    if cols = 0 then (none, { file with error := RLX_ERR_NO_ENT })
    else if cols ≠ 1 then (none, { file with error := RLX_ERR_FMT })
    else if rows.length < 1 then (none, { file with error := RLX_ERR_NO_ENT })
    else (some rows, file)

/-- `rlx_get_fit_parameters`: streaming query `SELECT pindex,name,value,
error,lowerlimit,upperlimit FROM Fitparameters WHERE file_id=%d`.
`*length` is written 0 up front, so the count component is always defined.
Each delivered row runs `assert(sqlite3_column_count(ppStmt) == 6)`, so a
wrong column count with at least one row aborts the process (`CResult.abort`);
with zero rows the assert never runs.  A terminal step result other than
SQLITE_OK/SQLITE_DONE frees the partial output and stores that code.  On
success the sentinel is appended, `*length` gets the row count and the
handle error is set to the `sqlite3_finalize` result (0 when finalize
succeeds). -/
def rlx_get_fit_parameters (file : rlxfile) (project : rlx_project) (id : Int) :
    CResult (Option (List rlx_fitparam) × Nat × rlxfile) :=
  if file.db.fitFault.prepareRet ≠ SQLITE_OK then
    .ret (none, 0, { file with error := file.db.fitFault.prepareRet })
  else if ¬(file.db.fitparameters.filter (fun r => r.file_id = id)).isEmpty ∧
      file.db.fitFault.colCount ≠ 6 then .abort
  else if file.db.fitFault.stepTermRet ≠ SQLITE_OK ∧
      file.db.fitFault.stepTermRet ≠ SQLITE_DONE then
    .ret (none, 0, { file with error := file.db.fitFault.stepTermRet })
  else
    .ret
      (some ((file.db.fitparameters.filter (fun r => r.file_id = id)).map fun r =>
        ⟨id, r.pindex, r.name, r.value, r.error, r.lowerlimit, r.upperlimit⟩),
       (file.db.fitparameters.filter (fun r => r.file_id = id)).length,
       { file with error := file.db.fitFault.finalizeRet })

end Rlx

namespace Rlx

/-! ## Concrete fixtures (spec section 8 scenario and variants) -/

/-- Archive of the spec section 8 scenario: one project (id 7, "Cell-A"),
one spectrum (id 3, not fitted) with two datapoints and two metadata rows,
zero fit parameters. -/
def dbW : Db :=
  { properties := [⟨"DatabaseFormat", 1⟩]
    projects := [⟨7, "Cell-A", 0⟩]
    files := [⟨3, 7, "R-RC", "0", 1, 1000, 0, 0⟩]
    datapoints := [⟨3, 1, 10, -2⟩, ⟨3, 10, 8, -1⟩]
    fileInformation := [⟨3, "Temperature", "23.5"⟩, ⟨3, "note", "N/A"⟩]
    fitparameters := [] }

def fileW : rlxfile := ⟨0, dbW⟩

def projW : rlx_project := ⟨7, "Cell-A", 0⟩

/-- The datapoints the scenario decodes to. -/
def dpW : List rlx_datapoint :=
  [⟨-2, 10, 1 * (2 * C_M_PI)⟩, ⟨-1, 8, 10 * (2 * C_M_PI)⟩]

/-- Variant of the scenario archive with zero datapoint rows. -/
def dbC1 : Db := { dbW with datapoints := [] }

/-- Variant of the scenario archive with an empty Files table. -/
def dbC3 : Db := { dbW with files := [] }

/-! ## Claim theorems -/


/-- Inversion for a successful `runGetTable` call: the delivered rows are
exactly the queried rows and the column count is the reported one. -/
theorem runGetTable_ok {α : Type} {fault : GetTableFault} {natCols : Nat}
    {rows0 rows : List α} {cols : Nat}
    (h : runGetTable fault natCols rows0 = .ok rows cols) :
    rows = rows0 ∧ cols = fault.colsOverride.getD (if rows0.isEmpty then 0 else natCols) := by
  unfold runGetTable at h
  split at h
  · cases h
  · cases h
    exact ⟨rfl, rfl⟩

/-- C6: every datapoint loaded from the Datapoints table has its omega
field equal to the stored frequency cell multiplied by 2*M_PI (the exact
rational value of the double constant for pi), and its re and im fields
equal to the stored zreal and zimag cells. -/
theorem C6_datapoint_decode (file : rlxfile) (id : Int)
    (l : List rlx_datapoint) (len : Option Nat) (f' : rlxfile)
    (h : rlx_get_datapoints file id = (some l, len, f')) :
    l.length = (file.db.datapoints.filter (fun r => r.file_id = id)).length ∧
    ∀ (i : Nat) (hi : i < l.length)
      (hr : i < (file.db.datapoints.filter (fun r => r.file_id = id)).length),
      l[i].omega = (file.db.datapoints.filter (fun r => r.file_id = id))[i].frequency * (2 * C_M_PI) ∧
      l[i].re = (file.db.datapoints.filter (fun r => r.file_id = id))[i].zreal ∧
      l[i].im = (file.db.datapoints.filter (fun r => r.file_id = id))[i].zimag := by
  unfold rlx_get_datapoints at h
  rcases hq : runGetTable file.db.datapointsFault 3
      (file.db.datapoints.filter (fun r => r.file_id = id)) with c | ⟨rows, cols⟩
  · rw [hq] at h
    exact absurd h (by simp)
  · rw [hq] at h
    dsimp only at h
    obtain ⟨hrows, -⟩ := runGetTable_ok hq
    subst hrows
    split at h
    · exact absurd h (by simp)
    · split at h
      · exact absurd h (by simp)
      · have hl : l = (file.db.datapoints.filter (fun r => r.file_id = id)).map
            (fun r => (⟨r.zimag, r.zreal, r.frequency * (2 * C_M_PI)⟩ : rlx_datapoint)) := by
          have h1 := congrArg Prod.fst h
          simpa using h1.symm
        subst hl
        refine ⟨by simp, ?_⟩
        intro i hi hr
        simp


/-- Witness for C6: on the section-8 scenario archive the two datapoints
decode to omega values frequency * 2*M_PI, and for stored frequency 1.0 the
omega is within 1e-8 of the spec's quoted 6.283185307. -/
theorem C6_datapoint_decode_witness :
    (0 ≤ 1 * (2 * C_M_PI) - 6283185307 / 1000000000 ∧
     1 * (2 * C_M_PI) - 6283185307 / 1000000000 < 1 / 100000000) ∧
    (dpW.length = (fileW.db.datapoints.filter (fun r => r.file_id = 3)).length ∧
     ∀ (i : Nat) (hi : i < dpW.length)
       (hr : i < (fileW.db.datapoints.filter (fun r => r.file_id = 3)).length),
       dpW[i].omega = (fileW.db.datapoints.filter (fun r => r.file_id = 3))[i].frequency * (2 * C_M_PI) ∧
       dpW[i].re = (fileW.db.datapoints.filter (fun r => r.file_id = 3))[i].zreal ∧
       dpW[i].im = (fileW.db.datapoints.filter (fun r => r.file_id = 3))[i].zimag) :=
  ⟨by constructor <;> norm_num [C_M_PI],
   C6_datapoint_decode fileW 3 dpW (some 2) fileW (by rfl)⟩

/-- Characterization of `rlx_open_file` when the version property is
readable (prepare succeeds and the statement reports its natural single
column): the handle exists exactly when the connection opened and the
stored version is 1 or 2. -/
theorem rlx_open_file_eq (db : Db)
    (h1 : db.openFault.prepareRet = 0)
    (h2 : db.openFault.colsOverride = none) :
    rlx_open_file db =
      if (db.openFault.openRet = 0 ∨ db.openFault.openRet = 101) ∧
         (dbVersion db = 1 ∨ dbVersion db = 2)
      then some ⟨0, db⟩ else none := by
  unfold rlx_open_file
  by_cases hf : (db.properties.find? (fun p => p.name = "DatabaseFormat")).isSome <;>
    by_cases ho : (db.openFault.openRet = 0 ∨ db.openFault.openRet = 101) <;>
    by_cases hv : (dbVersion db = 1 ∨ dbVersion db = 2) <;>
    simp [h1, h2, hf, ho, hv, SQLITE_OK, SQLITE_DONE, SQLITE_ROW] <;>
    tauto

/-- C2: rlx_open_file yields a handle exactly when the connection opens and
the stored DatabaseFormat integer is in the recognized set with the version
property readable; a returned handle carries no error state; and an
unreadable version property (prepare failure or wrong column count) yields
no handle at all. -/
theorem C2_open_version_gate :
    (∀ db : Db,
      db.openFault.prepareRet = 0 →
      db.openFault.colsOverride = none →
      (((rlx_open_file db).isSome ↔
         ((db.openFault.openRet = 0 ∨ db.openFault.openRet = 101) ∧
          (dbVersion db = 1 ∨ dbVersion db = 2))) ∧
       ∀ h, rlx_open_file db = some h → h.error = RLX_ERR_SUCESS)) ∧
    (∀ db : Db,
      db.openFault.prepareRet ≠ 0 ∨ db.openFault.colsOverride.getD 1 ≠ 1 →
      rlx_open_file db = none) := by
  constructor
  · intro db h1 h2
    constructor
    · rw [rlx_open_file_eq db h1 h2]
      split
      next hcond => simp [hcond]
      next hcond => simpa using hcond
    · intro h hh
      rw [rlx_open_file_eq db h1 h2] at hh
      split at hh
      · cases hh
        rfl
      · cases hh
  · intro db hor
    unfold rlx_open_file
    rcases hor with hp | hc
    · by_cases ho : (db.openFault.openRet = 0 ∨ db.openFault.openRet = 101) <;>
        simp [ho, hp, SQLITE_OK]
    · by_cases ho : (db.openFault.openRet = 0 ∨ db.openFault.openRet = 101) <;>
        by_cases hp2 : db.openFault.prepareRet ≠ 0 <;>
        simp [ho, hp2, hc, SQLITE_OK]

/-- Witness for C2: the scenario archive (version 1, clean faults) opens
and the returned handle carries error state 0. -/
theorem C2_open_version_gate_witness :
    (rlx_open_file dbW).isSome ∧ (rlxfile.mk 0 dbW).error = RLX_ERR_SUCESS :=
  ⟨((C2_open_version_gate.1 dbW rfl rfl).1).mpr ⟨Or.inl rfl, Or.inl (by rfl)⟩,
   (C2_open_version_gate.1 dbW rfl rfl).2 ⟨0, dbW⟩
     (by rw [rlx_open_file_eq dbW rfl rfl]; rfl)⟩

/-- Inversion for a failed `runGetTable` call: the code is the injected
nonzero return code. -/
theorem runGetTable_backendErr {α : Type} {fault : GetTableFault} {natCols : Nat}
    {rows0 : List α} {c : Int}
    (h : runGetTable fault natCols rows0 = .backendErr c) :
    c = fault.retCode ∧ fault.retCode ≠ 0 := by
  unfold runGetTable at h
  split at h
  · cases h
    exact ⟨rfl, by assumption⟩
  · cases h

/-- Exhaustive outcome analysis of `rlx_get_projects`. -/
theorem rlx_get_projects_cases (file : rlxfile) :
    (file.db.projectsFault.retCode ≠ 0 ∧
      rlx_get_projects file = (none, { file with error := file.db.projectsFault.retCode })) ∨
    rlx_get_projects file = (none, { file with error := RLX_ERR_FMT }) ∨
    rlx_get_projects file =
      (some (file.db.projects.map fun r => ⟨r.id, r.name, r.date⟩), file) := by
  unfold rlx_get_projects
  rcases hq : runGetTable file.db.projectsFault 3 file.db.projects with c | ⟨rows, cols⟩
  · obtain ⟨hc, hne⟩ := runGetTable_backendErr hq
    subst hc
    exact Or.inl ⟨hne, rfl⟩
  · obtain ⟨hrows, -⟩ := runGetTable_ok hq
    subst hrows
    dsimp only
    by_cases hc : cols ≠ 3
    · rw [if_pos hc]
      exact Or.inr (Or.inl rfl)
    · rw [if_neg hc]
      exact Or.inr (Or.inr rfl)

/-- Exhaustive outcome analysis of `rlx_get_spectra_ids`. -/
theorem rlx_get_spectra_ids_cases (file : rlxfile) (proj : rlx_project) :
    (file.db.idsFault.retCode ≠ 0 ∧
      rlx_get_spectra_ids file proj = (none, { file with error := file.db.idsFault.retCode })) ∨
    rlx_get_spectra_ids file proj = (none, { file with error := RLX_ERR_NO_ENT }) ∨
    rlx_get_spectra_ids file proj = (none, { file with error := RLX_ERR_FMT }) ∨
    rlx_get_spectra_ids file proj =
      (some ((file.db.files.filter (fun r => r.project_id = proj.id)).map fun r => r.id), file) := by
  unfold rlx_get_spectra_ids
  split
  next c heq =>
    obtain ⟨hc, hne⟩ := runGetTable_backendErr heq
    subst hc
    exact Or.inl ⟨hne, rfl⟩
  next rows cols heq =>
    obtain ⟨hrows, -⟩ := runGetTable_ok heq
    subst hrows
    by_cases h0 : cols = 0
    · rw [if_pos h0]
      exact Or.inr (Or.inl rfl)
    · rw [if_neg h0]
      by_cases h1 : cols ≠ 1
      · rw [if_pos h1]
        exact Or.inr (Or.inr (Or.inl rfl))
      · rw [if_neg h1]
        split
        · exact Or.inr (Or.inl rfl)
        · exact Or.inr (Or.inr (Or.inr rfl))

/-- Exhaustive outcome analysis of `rlx_get_datapoints`. -/
theorem rlx_get_datapoints_cases (file : rlxfile) (id : Int) :
    (file.db.datapointsFault.retCode ≠ 0 ∧
      rlx_get_datapoints file id = (none, some 0, { file with error := file.db.datapointsFault.retCode })) ∨
    rlx_get_datapoints file id = (none, none, { file with error := RLX_ERR_FMT }) ∨
    rlx_get_datapoints file id = (none, none, { file with error := RLX_ERR_NO_ENT }) ∨
    rlx_get_datapoints file id =
      (some ((file.db.datapoints.filter (fun r => r.file_id = id)).map fun r =>
          ⟨r.zimag, r.zreal, r.frequency * (2 * C_M_PI)⟩),
       some (file.db.datapoints.filter (fun r => r.file_id = id)).length, file) := by
  unfold rlx_get_datapoints
  split
  next c heq =>
    obtain ⟨hc, hne⟩ := runGetTable_backendErr heq
    subst hc
    exact Or.inl ⟨hne, rfl⟩
  next rows cols heq =>
    obtain ⟨hrows, -⟩ := runGetTable_ok heq
    subst hrows
    by_cases hc : cols ≠ 3
    · rw [if_pos hc]
      exact Or.inr (Or.inl rfl)
    · rw [if_neg hc]
      split
      · exact Or.inr (Or.inr (Or.inl rfl))
      · exact Or.inr (Or.inr (Or.inr rfl))

/-- Exhaustive outcome analysis of `rlx_get_metadata`. -/
theorem rlx_get_metadata_cases (file : rlxfile) (id : Int) :
    (file.db.metadataFault.retCode ≠ 0 ∧
      rlx_get_metadata file id = (none, 0, { file with error := file.db.metadataFault.retCode })) ∨
    rlx_get_metadata file id = (none, 0, { file with error := RLX_ERR_FMT }) ∨
    rlx_get_metadata file id =
      (some ((file.db.fileInformation.filter (fun r => r.file_id = id)).map fun r =>
          match parseDouble r.value with
          | some v => ⟨r.name, r.value, v, .RLX_FIELD_TYPE_DOUBLE⟩
          | none => ⟨r.name, r.value, 0, .RLX_FIELD_TYPE_STR⟩),
       (file.db.fileInformation.filter (fun r => r.file_id = id)).length, file) := by
  unfold rlx_get_metadata
  split
  next c heq =>
    obtain ⟨hc, hne⟩ := runGetTable_backendErr heq
    subst hc
    exact Or.inl ⟨hne, rfl⟩
  next rows cols heq =>
    obtain ⟨hrows, -⟩ := runGetTable_ok heq
    subst hrows
    by_cases hc : cols ≠ 2
    · rw [if_pos hc]
      exact Or.inr (Or.inl rfl)
    · rw [if_neg hc]
      exact Or.inr (Or.inr rfl)

/-- Exhaustive outcome analysis of `rlx_get_fit_parameters`. -/
theorem rlx_get_fit_parameters_cases (file : rlxfile) (proj : rlx_project) (id : Int) :
    (file.db.fitFault.prepareRet ≠ 0 ∧
      rlx_get_fit_parameters file proj id =
        .ret (none, 0, { file with error := file.db.fitFault.prepareRet })) ∨
    rlx_get_fit_parameters file proj id = .abort ∨
    ((file.db.fitFault.stepTermRet ≠ 0 ∧ file.db.fitFault.stepTermRet ≠ 101) ∧
      rlx_get_fit_parameters file proj id =
        .ret (none, 0, { file with error := file.db.fitFault.stepTermRet })) ∨
    rlx_get_fit_parameters file proj id =
      .ret (some ((file.db.fitparameters.filter (fun r => r.file_id = id)).map fun r =>
          ⟨id, r.pindex, r.name, r.value, r.error, r.lowerlimit, r.upperlimit⟩),
        (file.db.fitparameters.filter (fun r => r.file_id = id)).length,
        { file with error := file.db.fitFault.finalizeRet }) := by
  unfold rlx_get_fit_parameters
  by_cases hp : file.db.fitFault.prepareRet ≠ SQLITE_OK
  · rw [if_pos hp]
    exact Or.inl ⟨hp, rfl⟩
  · rw [if_neg hp]
    by_cases ha : ¬(file.db.fitparameters.filter (fun r => r.file_id = id)).isEmpty ∧
        file.db.fitFault.colCount ≠ 6
    · rw [if_pos ha]
      exact Or.inr (Or.inl rfl)
    · rw [if_neg ha]
      by_cases hs : file.db.fitFault.stepTermRet ≠ SQLITE_OK ∧
          file.db.fitFault.stepTermRet ≠ SQLITE_DONE
      · rw [if_pos hs]
        exact Or.inr (Or.inr (Or.inl ⟨hs, rfl⟩))
      · rw [if_neg hs]
        exact Or.inr (Or.inr (Or.inr rfl))

/-- Exhaustive outcome analysis of `rlx_get_spectra`. -/
theorem rlx_get_spectra_cases (file : rlxfile) (proj : rlx_project) (id : Int) :
    (file.db.filesFault.retCode ≠ 0 ∧
      rlx_get_spectra file proj id = (none, { file with error := file.db.filesFault.retCode })) ∨
    rlx_get_spectra file proj id = (none, { file with error := RLX_ERR_NON_EXIST_SPECTRA }) ∨
    rlx_get_spectra file proj id = (none, { file with error := RLX_ERR_FMT }) ∨
    (∃ s, rlx_get_spectra file proj id =
        (some s, (rlx_get_metadata (rlx_get_datapoints file id).2.2 id).2.2) ∧
      s.id = id ∧ s.project_id = proj.id ∧
      s.datapoints = (rlx_get_datapoints file id).1 ∧
      s.length = (rlx_get_datapoints file id).2.1 ∧
      s.metadata = (rlx_get_metadata (rlx_get_datapoints file id).2.2 id).1 ∧
      s.metadata_count = (rlx_get_metadata (rlx_get_datapoints file id).2.2 id).2.1) := by
  unfold rlx_get_spectra
  split
  next c heq =>
    obtain ⟨hc, hne⟩ := runGetTable_backendErr heq
    subst hc
    exact Or.inl ⟨hne, rfl⟩
  next rows cols heq =>
    split
    · exact Or.inr (Or.inl rfl)
    · by_cases hc : cols ≠ 6
      · rw [if_pos hc]
        exact Or.inr (Or.inr (Or.inl rfl))
      · rw [if_neg hc]
        exact Or.inr (Or.inr (Or.inr ⟨_, rfl, rfl, rfl, rfl, rfl, rfl, rfl⟩))

/-- C1 (evaluation at the failing input): on an archive whose Datapoints
table has zero rows for spectrum 3, the datapoint load fails and
RLX_ERR_FMT is recorded in the handle, yet rlx_get_spectra still returns a
non-NULL spectrum record whose datapoints pointer is NULL — the half-built
record the claim says must not be observable. -/
theorem C1_half_built_spectrum_observable :
    ((rlx_get_spectra ⟨0, dbC1⟩ projW 3).1.map
      (fun s => (s.datapoints.isSome, s.id, s.project_id))) = some (false, 3, 7) ∧
    rlx_get_errnum (rlx_get_spectra ⟨0, dbC1⟩ projW 3).2 = RLX_ERR_FMT := by
  constructor <;> rfl

/-- Counterexample to C3: after rlx_get_spectra_ids fails on an empty
Files table (storing RLX_ERR_NO_ENT), a subsequent successful
rlx_get_projects leaves the stale RLX_ERR_NO_ENT in the handle instead of
the "no error" value the claim requires. -/
theorem C3_stale_error_after_success :
    (rlx_get_spectra_ids ⟨0, dbC3⟩ projW).1 = none ∧
    rlx_get_errnum (rlx_get_spectra_ids ⟨0, dbC3⟩ projW).2 = RLX_ERR_NO_ENT ∧
    (rlx_get_projects (rlx_get_spectra_ids ⟨0, dbC3⟩ projW).2).1.isSome = true ∧
    rlx_get_errnum (rlx_get_projects (rlx_get_spectra_ids ⟨0, dbC3⟩ projW).2).2 = RLX_ERR_NO_ENT ∧
    RLX_ERR_NO_ENT ≠ RLX_ERR_SUCESS := by
  refine ⟨rfl, rfl, rfl, rfl, by decide⟩

/-- C3 (amended): on failure every query-performing operation stores a
nonzero error code retrievable via rlx_get_errnum; on success
rlx_get_fit_parameters stores the finalize result (the no-error value when
finalize succeeds), while rlx_get_projects, rlx_get_spectra_ids and
rlx_get_spectra leave the stored error unchanged, so the stored code is
that of the last failing operation rather than a per-call success
marker. -/
theorem C3_error_discipline (file : rlxfile) (proj : rlx_project) (id : Int) :
    ((rlx_get_projects file).1 = none →
      rlx_get_errnum (rlx_get_projects file).2 ≠ RLX_ERR_SUCESS) ∧
    ((rlx_get_projects file).1.isSome →
      rlx_get_errnum (rlx_get_projects file).2 = file.error) ∧
    ((rlx_get_spectra_ids file proj).1 = none →
      rlx_get_errnum (rlx_get_spectra_ids file proj).2 ≠ RLX_ERR_SUCESS) ∧
    ((rlx_get_spectra_ids file proj).1.isSome →
      rlx_get_errnum (rlx_get_spectra_ids file proj).2 = file.error) ∧
    ((rlx_get_spectra file proj id).1 = none →
      rlx_get_errnum (rlx_get_spectra file proj id).2 ≠ RLX_ERR_SUCESS) ∧
    (∀ s, (rlx_get_spectra file proj id).1 = some s → s.datapoints.isSome →
      s.metadata.isSome →
      rlx_get_errnum (rlx_get_spectra file proj id).2 = file.error) ∧
    (∀ n f2, rlx_get_fit_parameters file proj id = .ret (none, n, f2) →
      rlx_get_errnum f2 ≠ RLX_ERR_SUCESS) ∧
    (∀ l n f2, rlx_get_fit_parameters file proj id = .ret (some l, n, f2) →
      rlx_get_errnum f2 = file.db.fitFault.finalizeRet) := by
  refine ⟨?_, ?_, ?_, ?_, ?_, ?_, ?_, ?_⟩
  · intro hnone
    rcases rlx_get_projects_cases file with ⟨hne, he⟩ | he | he <;>
      simp [he, rlx_get_errnum, RLX_ERR_SUCESS, RLX_ERR_FMT] at hnone ⊢ <;> try exact hne
  · intro hsome
    rcases rlx_get_projects_cases file with ⟨hne, he⟩ | he | he <;>
      simp [he, rlx_get_errnum] at hsome ⊢
  · intro hnone
    rcases rlx_get_spectra_ids_cases file proj with ⟨hne, he⟩ | he | he | he <;>
      simp [he, rlx_get_errnum, RLX_ERR_SUCESS, RLX_ERR_NO_ENT, RLX_ERR_FMT] at hnone ⊢ <;>
      try exact hne
  · intro hsome
    rcases rlx_get_spectra_ids_cases file proj with ⟨hne, he⟩ | he | he | he <;>
      simp [he, rlx_get_errnum] at hsome ⊢
  · intro hnone
    rcases rlx_get_spectra_cases file proj id with ⟨hne, he⟩ | he | he | ⟨s, he, -⟩ <;>
      simp [he, rlx_get_errnum, RLX_ERR_SUCESS, RLX_ERR_NON_EXIST_SPECTRA, RLX_ERR_FMT]
        at hnone ⊢ <;> try exact hne
  · intro s hsome hdp hmd
    rcases rlx_get_spectra_cases file proj id with ⟨hne, he⟩ | he | he |
        ⟨s2, he, -, -, hdp2, -, hmd2, -⟩ <;>
      simp [he, rlx_get_errnum] at hsome ⊢
    subst hsome
    rcases rlx_get_datapoints_cases file id with ⟨hne2, he2⟩ | he2 | he2 | he2
    · rw [he2] at hdp2
      simp at hdp2
      simp [hdp2] at hdp
    · rw [he2] at hdp2
      simp at hdp2
      simp [hdp2] at hdp
    · rw [he2] at hdp2
      simp at hdp2
      simp [hdp2] at hdp
    · have hfile : (rlx_get_datapoints file id).2.2 = file := by rw [he2]
      rw [hfile] at hmd2 ⊢
      rcases rlx_get_metadata_cases file id with ⟨hne3, he3⟩ | he3 | he3
      · rw [he3] at hmd2
        simp at hmd2
        simp [hmd2] at hmd
      · rw [he3] at hmd2
        simp at hmd2
        simp [hmd2] at hmd
      · rw [he3]
  · intro n f2 hret
    rcases rlx_get_fit_parameters_cases file proj id with ⟨hne, he⟩ | he | ⟨⟨h1, h2⟩, he⟩ | he <;>
      rw [he] at hret <;> simp at hret
    · obtain ⟨-, hf2⟩ := hret
      subst hf2
      simpa [rlx_get_errnum, RLX_ERR_SUCESS] using hne
    · obtain ⟨-, hf2⟩ := hret
      subst hf2
      simpa [rlx_get_errnum, RLX_ERR_SUCESS] using h1
  · intro l n f2 hret
    rcases rlx_get_fit_parameters_cases file proj id with ⟨hne, he⟩ | he | ⟨⟨h1, h2⟩, he⟩ | he <;>
      rw [he] at hret <;> simp at hret
    obtain ⟨-, -, hf2⟩ := hret
    subst hf2
    rfl

/-- Witness for C3 (amended): a successful rlx_get_spectra_ids on the
scenario archive leaves the handle error unchanged at the success value. -/
theorem C3_error_discipline_witness :
    (rlx_get_spectra_ids fileW projW).1.isSome = true ∧
    rlx_get_errnum (rlx_get_spectra_ids fileW projW).2 = RLX_ERR_SUCESS :=
  ⟨rfl, ((C3_error_discipline fileW projW 3).2.2.2.1 (by rfl)).trans rfl⟩

/-- C4: when the Fitparameters query yields zero rows under a clean
backend, rlx_get_fit_parameters returns a non-NULL empty sequence with
count 0 and the no-error value stored, while the zero-datapoints case of
spectrum loading is an error (NULL result with a nonzero stored code). -/
theorem C4_fitparams_empty_success :
    (∀ (file : rlxfile) (proj : rlx_project) (id : Int),
      file.db.fitparameters.filter (fun r => r.file_id = id) = [] →
      file.db.fitFault = FitFault.clean →
      rlx_get_fit_parameters file proj id =
        .ret (some [], 0, { file with error := RLX_ERR_SUCESS })) ∧
    (∀ (file : rlxfile) (id : Int),
      file.db.datapoints.filter (fun r => r.file_id = id) = [] →
      file.db.datapointsFault = GetTableFault.clean →
      (rlx_get_datapoints file id).1 = none ∧
      rlx_get_errnum (rlx_get_datapoints file id).2.2 ≠ RLX_ERR_SUCESS) := by
  constructor
  · intro file proj id hflt hfault
    unfold rlx_get_fit_parameters
    rw [hflt, hfault]
    simp [FitFault.clean, SQLITE_OK, SQLITE_DONE, RLX_ERR_SUCESS]
  · intro file id hflt hfault
    unfold rlx_get_datapoints
    rw [hflt, hfault]
    simp [runGetTable, GetTableFault.clean, rlx_get_errnum, RLX_ERR_SUCESS, RLX_ERR_FMT]

/-- Witness for C4: the scenario archive has zero fit-parameter rows for
spectrum 3 and yields the empty success; the zero-datapoints variant
yields a NULL datapoint result. -/
theorem C4_fitparams_empty_success_witness :
    rlx_get_fit_parameters fileW projW 3 =
      .ret (some [], 0, { fileW with error := RLX_ERR_SUCESS }) ∧
    (rlx_get_datapoints ⟨0, dbC1⟩ 3).1 = none :=
  ⟨C4_fitparams_empty_success.1 fileW projW 3 (by rfl) rfl,
   (C4_fitparams_empty_success.2 ⟨0, dbC1⟩ 3 (by rfl) rfl).1⟩

/-- Variant archive with one fit-parameter row for spectrum 3 and a
column-count fault of 5 on the fit-parameter statement. -/
def dbC5 : Db :=
  { dbW with fitparameters := [⟨3, 0, "R0", 10, 1, 0, 100⟩], fitFault := ⟨0, 5, 101, 0⟩ }

/-- Counterexample to C5: with a delivered row of five columns,
rlx_get_fit_parameters hits assert(sqlite3_column_count(ppStmt) == 6) and
aborts the process; it does not store RLX_ERR_FMT and return NULL as the
claim states. -/
theorem C5_assert_aborts : rlx_get_fit_parameters ⟨0, dbC5⟩ projW 3 = .abort := by rfl

/-- C5 (amended): whenever the prepared fit-parameter statement reports a
column count other than six and at least one row is delivered, the loader
aborts through its assertion instead of failing with a stored
MalformedArchive code. -/
theorem C5_bad_shape_asserts (file : rlxfile) (proj : rlx_project) (id : Int)
    (h1 : file.db.fitFault.prepareRet = 0)
    (h2 : file.db.fitFault.colCount ≠ 6)
    (h3 : file.db.fitparameters.filter (fun r => r.file_id = id) ≠ []) :
    rlx_get_fit_parameters file proj id = .abort := by
  unfold rlx_get_fit_parameters
  rw [if_neg (by simp [SQLITE_OK, h1]), if_pos ⟨by simpa using h3, h2⟩]

/-- Variant archive with two fit-parameter rows for spectrum 3 and a
column-count fault of 7 on the fit-parameter statement. -/
def dbC5w : Db :=
  { dbW with
    fitparameters := [⟨3, 0, "R0", 10, 1, 0, 100⟩, ⟨3, 1, "R1", 5, 1, 0, 10⟩],
    fitFault := ⟨0, 7, 101, 0⟩ }

/-- Witness for C5 (amended): a seven-column statement shape with two
delivered rows aborts. -/
theorem C5_bad_shape_asserts_witness :
    rlx_get_fit_parameters ⟨0, dbC5w⟩ projW 3 = .abort :=
  C5_bad_shape_asserts ⟨0, dbC5w⟩ projW 3 rfl (by decide) (by decide)

/-- C7: every metadata row loaded from FileInformation keeps its raw key
and value strings, and is tagged numeric-typed with the parsed double
exactly when the raw value parses as a double, string-typed otherwise. -/
theorem C7_metadata_typing (file : rlxfile) (id : Int)
    (l : List rlx_metadata) (n : Nat) (f2 : rlxfile)
    (h : rlx_get_metadata file id = (some l, n, f2)) :
    l.length = (file.db.fileInformation.filter (fun r => r.file_id = id)).length ∧
    ∀ (i : Nat) (hi : i < l.length)
      (hr : i < (file.db.fileInformation.filter (fun r => r.file_id = id)).length),
      l[i].key = (file.db.fileInformation.filter (fun r => r.file_id = id))[i].name ∧
      l[i].str = (file.db.fileInformation.filter (fun r => r.file_id = id))[i].value ∧
      (∀ v, parseDouble (file.db.fileInformation.filter (fun r => r.file_id = id))[i].value = some v →
        l[i].type = .RLX_FIELD_TYPE_DOUBLE ∧ l[i].value = v) ∧
      (parseDouble (file.db.fileInformation.filter (fun r => r.file_id = id))[i].value = none →
        l[i].type = .RLX_FIELD_TYPE_STR) := by
  rcases rlx_get_metadata_cases file id with ⟨-, he⟩ | he | he <;> rw [he] at h <;> simp at h
  obtain ⟨hl, -⟩ := h
  subst hl
  refine ⟨by simp, ?_⟩
  intro i hi hr
  simp only [List.getElem_map]
  rcases hp : parseDouble (file.db.fileInformation.filter (fun r => r.file_id = id))[i].value
    with _ | v <;> simp [hp]

/-- The metadata entries the scenario archive decodes to. -/
def mdW : List rlx_metadata := ((rlx_get_metadata fileW 3).1).getD []

/-- Witness for C7: on the scenario archive the value "23.5" parses to the
rational 23.5 and is tagged numeric, "N/A" does not parse and is tagged
string-typed. -/
theorem C7_metadata_typing_witness :
    (parseDouble "23.5" = some (47 / 2) ∧ parseDouble "N/A" = none) ∧
    (mdW.length = (fileW.db.fileInformation.filter (fun r => r.file_id = 3)).length ∧
     ∀ (i : Nat) (hi : i < mdW.length)
       (hr : i < (fileW.db.fileInformation.filter (fun r => r.file_id = 3)).length),
       mdW[i].key = (fileW.db.fileInformation.filter (fun r => r.file_id = 3))[i].name ∧
       mdW[i].str = (fileW.db.fileInformation.filter (fun r => r.file_id = 3))[i].value ∧
       (∀ v, parseDouble (fileW.db.fileInformation.filter (fun r => r.file_id = 3))[i].value = some v →
         mdW[i].type = .RLX_FIELD_TYPE_DOUBLE ∧ mdW[i].value = v) ∧
       (parseDouble (fileW.db.fileInformation.filter (fun r => r.file_id = 3))[i].value = none →
         mdW[i].type = .RLX_FIELD_TYPE_STR)) :=
  ⟨⟨by simp [parseDouble, digitsToNat, parseExpo]; norm_num, by rfl⟩,
   C7_metadata_typing fileW 3 mdW 2 fileW (by rfl)⟩

/-- C8: the metadata key mapping round-trips on every defined enum member,
and every string that is not the canonical key of a defined member maps to
the explicit unknown tag. -/
theorem C8_metadata_key_enum_roundtrip :
    (∀ f : rlx_metadata_field, f ≠ .RLX_FIELD_UNKOWN →
      rlx_metadata_get_enum (rlx_metadata_get_key f) = f) ∧
    (∀ s : String,
      (∀ f : rlx_metadata_field, f ≠ .RLX_FIELD_UNKOWN → s ≠ rlx_metadata_get_key f) →
      rlx_metadata_get_enum s = .RLX_FIELD_UNKOWN) := by
  constructor
  · decide
  · intro s h
    unfold rlx_metadata_get_enum
    rw [if_neg (h _ (by decide)), if_neg (h _ (by decide)), if_neg (h _ (by decide)),
      if_neg (h _ (by decide)), if_neg (h _ (by decide)), if_neg (h _ (by decide)),
      if_neg (h _ (by decide)), if_neg (h _ (by decide)), if_neg (h _ (by decide)),
      if_neg (h _ (by decide)), if_neg (h _ (by decide)), if_neg (h _ (by decide)),
      if_neg (h _ (by decide)), if_neg (h _ (by decide)), if_neg (h _ (by decide))]

/-- Witness for C8: the temperature tag round-trips and an unrecognized
string maps to the unknown tag. -/
theorem C8_metadata_key_enum_roundtrip_witness :
    rlx_metadata_get_enum (rlx_metadata_get_key .RLX_FIELD_TEMPERATURE) =
      rlx_metadata_field.RLX_FIELD_TEMPERATURE ∧
    rlx_metadata_get_enum "NotAKey" = rlx_metadata_field.RLX_FIELD_UNKOWN :=
  ⟨C8_metadata_key_enum_roundtrip.1 .RLX_FIELD_TEMPERATURE (by decide),
   C8_metadata_key_enum_roundtrip.2 "NotAKey" (by decide)⟩

/-- C9: every id returned by rlx_get_spectra_ids comes from a Files row
carrying the queried project id (no cross-project leakage), and zero
matching rows is reported as the NoSuchEntity error rather than as an
empty success. -/
theorem C9_ids_filtered_and_empty_error :
    (∀ (file : rlxfile) (proj : rlx_project) (ids : List Int) (f2 : rlxfile),
      rlx_get_spectra_ids file proj = (some ids, f2) →
      ∀ i ∈ ids, ∃ r ∈ file.db.files, r.project_id = proj.id ∧ r.id = i) ∧
    (∀ (file : rlxfile) (proj : rlx_project),
      file.db.files.filter (fun r => r.project_id = proj.id) = [] →
      file.db.idsFault = GetTableFault.clean →
      rlx_get_spectra_ids file proj = (none, { file with error := RLX_ERR_NO_ENT })) := by
  constructor
  · intro file proj ids f2 h i hi
    rcases rlx_get_spectra_ids_cases file proj with ⟨-, he⟩ | he | he | he <;> rw [he] at h <;>
      simp at h
    obtain ⟨hl, -⟩ := h
    subst hl
    simp only [List.mem_map] at hi
    obtain ⟨r, hrmem, hri⟩ := hi
    simp only [List.mem_filter] at hrmem
    exact ⟨r, hrmem.1, by simpa using hrmem.2, hri⟩
  · intro file proj hflt hfault
    unfold rlx_get_spectra_ids
    rw [hflt, hfault]
    simp [runGetTable, GetTableFault.clean, RLX_ERR_NO_ENT]

/-- Witness for C9: the scenario archive lists exactly spectrum id 3 for
project 7, and the empty-Files variant reports RLX_ERR_NO_ENT. -/
theorem C9_ids_filtered_and_empty_error_witness :
    (∃ r ∈ fileW.db.files, r.project_id = projW.id ∧ r.id = 3) ∧
    rlx_get_spectra_ids ⟨0, dbC3⟩ projW = (none, rlxfile.mk RLX_ERR_NO_ENT dbC3) :=
  ⟨C9_ids_filtered_and_empty_error.1 fileW projW [3] fileW (by rfl) 3 (by decide),
   C9_ids_filtered_and_empty_error.2 ⟨0, dbC3⟩ projW rfl rfl⟩

/-- C10: rlx_get_spectra stamps the returned record with the queried id
and the project argument's id, and every fit parameter returned by
rlx_get_fit_parameters carries the queried spectrum id. -/
theorem C10_identity_fields :
    (∀ (file : rlxfile) (proj : rlx_project) (id : Int) (s : rlx_spectra) (f2 : rlxfile),
      rlx_get_spectra file proj id = (some s, f2) → s.id = id ∧ s.project_id = proj.id) ∧
    (∀ (file : rlxfile) (proj : rlx_project) (id : Int)
      (l : List rlx_fitparam) (n : Nat) (f2 : rlxfile),
      rlx_get_fit_parameters file proj id = .ret (some l, n, f2) →
      ∀ p ∈ l, p.spectra_id = id) := by
  constructor
  · intro file proj id s f2 h
    rcases rlx_get_spectra_cases file proj id with ⟨-, he⟩ | he | he |
        ⟨s2, he, hid, hpid, -⟩ <;> rw [he] at h <;> simp at h
    obtain ⟨hs, -⟩ := h
    subst hs
    exact ⟨hid, hpid⟩
  · intro file proj id l n f2 h p hp
    rcases rlx_get_fit_parameters_cases file proj id with ⟨-, he⟩ | he | ⟨-, he⟩ | he <;>
      rw [he] at h <;> simp at h
    obtain ⟨hl, -⟩ := h
    subst hl
    simp only [List.mem_map] at hp
    obtain ⟨r, -, hr⟩ := hp
    rw [← hr]

/-- The spectrum record the scenario archive decodes to. -/
def sW : rlx_spectra :=
  ((rlx_get_spectra fileW projW 3).1).getD
    ⟨0, none, none, "", false, 0, 0, 0, 0, 0, none, 0⟩

/-- Variant archive with fit-parameter rows for spectra 3 and 4. -/
def dbF : Db :=
  { dbW with fitparameters := [⟨3, 0, "R0", 10, 1, 0, 100⟩, ⟨4, 1, "Rx", 1, 1, 0, 1⟩] }

/-- The fit-parameter records dbF decodes to for spectrum 3. -/
def fpF : List rlx_fitparam := [⟨3, 0, "R0", 10, 1, 0, 100⟩]

/-- Witness for C10: on the scenario archive the returned spectrum carries
id 3 and project id 7, and the single fit parameter for spectrum 3 carries
spectra_id 3. -/
theorem C10_identity_fields_witness :
    (sW.id = 3 ∧ sW.project_id = 7) ∧ (∀ p ∈ fpF, p.spectra_id = 3) :=
  ⟨C10_identity_fields.1 fileW projW 3 sW fileW (by rfl),
   C10_identity_fields.2 ⟨0, dbF⟩ projW 3 fpF 1 ⟨0, dbF⟩ (by rfl)⟩
